import Mathlib

/-!
Verification of the dialog-cache core and chat-join logic of the
TelegramAssistent gateway (`telegram_client.py`).

The embedding models `TelegramService`'s mutable fields
`_dialogs_cache`, `_dialogs_cache_time`, `_cache_ttl` as an explicit
`CacheState` record, the backend (`iter_dialogs` enumeration plus the
`start_client` connection it requires) as an `Except`-valued argument,
and the wall clock (`time.time()`, which the source reads once at line
116 of `get_dialogs`, before connecting and enumerating) as an explicit
integer-second parameter.  Timestamps are integers: the only uses of
time in the source are subtraction, comparison against the integer TTL,
and `int(age)` truncation, all of which the integer clock reproduces.
-/

namespace TelegramAssistent

/-- Backend entity attached to a dialog, as discriminated by the source's
`isinstance` checks on `User`, `Chat`, `Channel` (with its `broadcast`
flag); `other` stands for any entity of a different runtime type. -/
inductive Entity where
  | user (id : Int)
  | chat (id : Int)
  | channel (id : Int) (broadcast : Bool)
  | other (id : Int)
deriving DecidableEq, Repr

/-- `entity.id`, defined for every entity class. -/
def Entity.id : Entity → Int
  | .user i => i
  | .chat i => i
  | .channel i _ => i
  | .other i => i

/-- One element yielded by `client.iter_dialogs()`: the entity, the
`archived` flag, `dialog.title` (possibly `None`), `dialog.unread_count`
and `dialog.date` (already rendered to its ISO string, or `None`). -/
structure RawDialog where
  entity : Entity
  archived : Bool
  title : Option String
  unread_count : Int
  date : Option String
deriving DecidableEq, Repr

/-- The dict built for each accepted dialog in `get_dialogs`
(lines 151-157 of `telegram_client.py`). -/
structure Dialog where
  id : Int
  name : String
  type : String
  unread_count : Int
  last_message_date : Option String
deriving DecidableEq, Repr

/-- The `chat_type` classification chain of `get_dialogs`
(lines 139-149): `User` → "user", `Chat` → "group", `Channel` →
"channel" when `broadcast` else "supergroup", anything else →
"unknown". -/
def chatType : Entity → String
  | .user _ => "user"
  | .chat _ => "group"
  | .channel _ broadcast => if broadcast then "channel" else "supergroup"
  | .other _ => "unknown"

/-- `dialog.title or f"User {entity.id}"`: Python's `or` takes the
fallback when the title is `None` or the empty string (both falsy). -/
def dialogTitleOr (title : Option String) (eid : Int) : String :=
  match title with
  | some t => if t = "" then "User " ++ toString eid else t
  | none => "User " ++ toString eid

/-- The dict appended for one enumerated dialog (lines 151-157). -/
def mkDialog (r : RawDialog) : Dialog :=
  { id := Entity.id r.entity
    name := dialogTitleOr r.title (Entity.id r.entity)
    type := chatType r.entity
    unread_count := r.unread_count
    last_message_date := r.date }

/-- The `async for dialog in self.client.iter_dialogs()` loop of
`get_dialogs` (lines 131-162): skip archived dialogs, convert each
remaining one with `mkDialog`, increment `count` per accepted dialog and
break once `count >= 200`.  `count` is the accumulator argument. -/
def refillLoop : List RawDialog → Nat → List Dialog
  | [], _ => []
  | r :: rs, count =>
    if r.archived then
      refillLoop rs count
    else
      mkDialog r :: (if count + 1 ≥ 200 then [] else refillLoop rs (count + 1))

/-- The mutable cache fields of `TelegramService`: `_dialogs_cache`
(`None` or the snapshot list), `_dialogs_cache_time`, `_cache_ttl`. -/
structure CacheState where
  dialogs_cache : Option (List Dialog)
  dialogs_cache_time : Int
  cache_ttl : Int
deriving DecidableEq, Repr

/-- The state set up in `__init__`: empty cache, time 0, TTL 600 s. -/
def initState : CacheState :=
  { dialogs_cache := none, dialogs_cache_time := 0, cache_ttl := 600 }

/-- `limit = min(max(limit, 1), 200)` (line 113). -/
def clampLimit (limit : Int) : Int := min (max limit 1) 200

/-- The cache-hit test of lines 117-119: `not force_refresh and
self._dialogs_cache is not None and current_time -
self._dialogs_cache_time < self._cache_ttl`. -/
def cacheServable (st : CacheState) (current_time : Int) (force_refresh : Bool) : Bool :=
  !force_refresh && st.dialogs_cache.isSome
    && decide (current_time - st.dialogs_cache_time < st.cache_ttl)

/-- Result of one `get_dialogs` call: the returned list or the
propagated exception, the cache state after the call, and how many
backend enumerations were started (0 on a cache hit, 1 otherwise). -/
structure GetOutcome where
  result : Except String (List Dialog)
  state : CacheState
  backendCalls : Nat
deriving Repr

/-- `get_dialogs(limit, force_refresh)` (lines 102-172).  `backend` is
the combined outcome of `start_client()` plus the full enumeration: on
`.error` the exception of line 125/131 propagates before lines 165-166
run, so the cache fields keep their prior values.  `current_time` is the
`time.time()` reading of line 116 — taken before the backend is touched
— and is the value stored into `_dialogs_cache_time` at line 166. -/
def get_dialogs (st : CacheState) (backend : Except String (List RawDialog))
    (current_time : Int) (limit : Int) (force_refresh : Bool) : GetOutcome :=
  if cacheServable st current_time force_refresh then
    { result := .ok ((st.dialogs_cache.getD []).take (clampLimit limit).toNat)
      state := st
      backendCalls := 0 }
  else
    match backend with
    | .error e => { result := .error e, state := st, backendCalls := 1 }
    | .ok raws =>
      { result := .ok ((refillLoop raws 0).take (clampLimit limit).toNat)
        state := { st with dialogs_cache := some (refillLoop raws 0)
                           dialogs_cache_time := current_time }
        backendCalls := 1 }

/-- `clear_dialogs_cache` (lines 174-178): cache to `None`, time to 0. -/
def clear_dialogs_cache (st : CacheState) : CacheState :=
  { st with dialogs_cache := none, dialogs_cache_time := 0 }

/-- A value in the dict returned by `get_cache_info`. -/
inductive CVal where
  | s (v : String)
  | i (v : Int)
deriving DecidableEq, Repr

/-- `get_cache_info` (lines 180-191), returned as the literal key/value
list of the Python dict.  Note the empty-cache branch (line 183) returns
only three keys — no `ttl_seconds`.  With the integer clock, `int(age)`
is the identity. -/
def get_cache_info (st : CacheState) (now : Int) : List (String × CVal) :=
  match st.dialogs_cache with
  | none => [("status", .s "empty"), ("dialogs_count", .i 0), ("age_seconds", .i 0)]
  | some cache =>
    [("status", .s (if now - st.dialogs_cache_time < st.cache_ttl then "active" else "expired")),
     ("dialogs_count", .i (cache.length : Int)),
     ("age_seconds", .i (now - st.dialogs_cache_time)),
     ("ttl_seconds", .i st.cache_ttl)]

/-- The exceptions `join_chat` can raise: `ValueError` for expired or
invalid invite hashes, plain `Exception` otherwise. -/
inductive PyError where
  | valueError (msg : String)
  | exception (msg : String)
deriving DecidableEq, Repr

/-- The status dict returned by a successful `join_chat`. -/
structure JoinStatus where
  status : String
  message : String
deriving DecidableEq, Repr

/-- Outcome of the `ImportChatInviteRequest` call, discriminated the way
the source's `except` clauses do. -/
inductive JoinError where
  | inviteHashExpired
  | inviteHashInvalid
  | userAlreadyParticipant
  | other (msg : String)
deriving DecidableEq, Repr

/-- Whether `pre` is a leading segment of `l`. -/
def charsLeading : List Char → List Char → Bool
  | [], _ => true
  | _ :: _, [] => false
  | a :: as, b :: bs => a == b && charsLeading as bs

/-- Whether `needle` occurs contiguously inside `hay`. -/
def charsInside (needle : List Char) : List Char → Bool
  | [] => charsLeading needle []
  | b :: bs => charsLeading needle (b :: bs) || charsInside needle bs

/-- Substring test, modelling Python's `'t.me/' in invite_link`. -/
def strContains (s sub : String) : Bool :=
  charsInside sub.data s.data

/-- `invite_link.split('/')[-1]` followed by stripping one leading `@`
(lines 247-249). -/
def extractUsername (invite_link : String) : String :=
  let u := (invite_link.splitOn "/").getLastD ""
  if u.startsWith "@" then u.drop 1 else u

/-- `join_chat(invite_link)` (lines 227-257).  `importRes` is the
outcome of the `ImportChatInviteRequest` attempt (`none` = success);
`joinFallback` is the combined `get_entity` + `JoinChannelRequest`
attempt, as a function of the extracted username, with `.error` carrying
`str(inner_e)`.  The second component records whether that fallback
direct join was attempted at all.  Note that when the link does not
contain `t.me/`, the `raise` of line 255 happens inside the `try` of
line 245, so it is caught at line 256 and wrapped a second time. -/
def join_chat (invite_link : String) (importRes : Option JoinError)
    (joinFallback : String → Except String Unit) :
    Except PyError JoinStatus × Bool :=
  match importRes with
  | none => (.ok ⟨"joined", "Успешно присоединились к чату"⟩, false)
  | some .inviteHashExpired => (.error (.valueError "Ссылка приглашения истекла"), false)
  | some .inviteHashInvalid => (.error (.valueError "Неверная ссылка приглашения"), false)
  | some .userAlreadyParticipant => (.ok ⟨"already_joined", "Вы уже состоите в этом чате"⟩, false)
  | some (.other e) =>
    if strContains invite_link "t.me/" then
      match joinFallback (extractUsername invite_link) with
      | .ok _ => (.ok ⟨"joined", "Успешно присоединились к каналу"⟩, true)
      | .error inner =>
        (.error (.exception ("Ошибка при присоединении к чату: " ++ inner)), true)
    else
      (.error (.exception ("Ошибка при присоединении к чату: "
        ++ ("Ошибка при присоединении к чату: " ++ e))), false)

/-- A sample non-archived user dialog, used by concrete witnesses. -/
def rdUser : RawDialog :=
  { entity := .user 7, archived := false, title := some "Alice",
    unread_count := 2, date := some "2024-01-01T00:00:00" }

/-- A sample archived dialog, used by concrete witnesses. -/
def rdArchived : RawDialog :=
  { entity := .chat 8, archived := true, title := some "Old group",
    unread_count := 0, date := none }

/-- A sample broadcast-channel dialog, used by concrete witnesses. -/
def rdChannel : RawDialog :=
  { entity := .channel 9 true, archived := false, title := some "News",
    unread_count := 5, date := some "2024-01-02T00:00:00" }

/-- A sample dialog with no title, used by concrete witnesses. -/
def rdNoTitle : RawDialog :=
  { entity := .other 42, archived := false, title := none,
    unread_count := 0, date := none }

/-- A sample filled cache state (one-dialog snapshot, filled at time 0,
default TTL), used by concrete witnesses. -/
def stFilled : CacheState :=
  { dialogs_cache := some [mkDialog rdUser], dialogs_cache_time := 0,
    cache_ttl := 600 }

/-! ### Helper lemmas -/

/-- The enumeration loop equals: drop archived dialogs, keep the first
`200 - c` of the rest, convert each with `mkDialog` — valid while the
accumulator is below the cap. -/
theorem refillLoop_eq (raws : List RawDialog) (c : Nat) (hc : c < 200) :
    refillLoop raws c
      = ((raws.filter fun r => !r.archived).take (200 - c)).map mkDialog := by
  induction raws generalizing c with
  | nil => simp [refillLoop]
  | cons r rs ih =>
    simp only [refillLoop, List.filter_cons]
    by_cases ha : r.archived
    · simp [ha, ih c hc]
    · simp only [ha, Bool.not_false, if_true]
      by_cases h200 : c + 1 ≥ 200
      · have hc199 : c = 199 := by omega
        subst hc199
        simp
      · have hsplit : 200 - c = (200 - (c + 1)) + 1 := by omega
        rw [hsplit]
        simp [h200, ih (c + 1) (by omega)]

/-- Specialisation to the loop's actual starting accumulator. -/
theorem refillLoop_zero (raws : List RawDialog) :
    refillLoop raws 0
      = ((raws.filter fun r => !r.archived).take 200).map mkDialog :=
  refillLoop_eq raws 0 (by omega)

/-- A `get_dialogs` call whose cache-hit test passes is pure truncation
of the stored snapshot: unchanged state, no backend call. -/
theorem get_dialogs_hit (st : CacheState) (b : Except String (List RawDialog))
    (now limit : Int) (fr : Bool) (h : cacheServable st now fr = true) :
    get_dialogs st b now limit fr
      = { result := .ok ((st.dialogs_cache.getD []).take (clampLimit limit).toNat),
          state := st, backendCalls := 0 } := by
  simp [get_dialogs, h]

/-- A `get_dialogs` call that misses the cache and whose enumeration
succeeds installs the fresh snapshot with fill time `now`. -/
theorem get_dialogs_refill (st : CacheState) (raws : List RawDialog)
    (now limit : Int) (fr : Bool) (h : cacheServable st now fr = false) :
    get_dialogs st (.ok raws) now limit fr
      = { result := .ok ((refillLoop raws 0).take (clampLimit limit).toNat),
          state := { st with dialogs_cache := some (refillLoop raws 0),
                             dialogs_cache_time := now },
          backendCalls := 1 } := by
  simp [get_dialogs, h]

/-- A `get_dialogs` call that misses the cache and whose backend call
fails leaves the state untouched and propagates the error. -/
theorem get_dialogs_fail (st : CacheState) (e : String)
    (now limit : Int) (fr : Bool) (h : cacheServable st now fr = false) :
    get_dialogs st (.error e) now limit fr
      = { result := .error e, state := st, backendCalls := 1 } := by
  simp [get_dialogs, h]

/-- The cache-hit test passes on a fresh, present snapshot without
forced refresh. -/
theorem cacheServable_some_fresh (st : CacheState) (c : List Dialog) (now : Int)
    (hc : st.dialogs_cache = some c) (hf : now - st.dialogs_cache_time < st.cache_ttl) :
    cacheServable st now false = true := by
  simp [cacheServable, hc, hf]

/-- `force_refresh=true` always fails the cache-hit test. -/
theorem cacheServable_force (st : CacheState) (now : Int) :
    cacheServable st now true = false := by
  simp [cacheServable]

/-- A snapshot at or beyond the TTL fails the cache-hit test. -/
theorem cacheServable_stale (st : CacheState) (now : Int) (fr : Bool)
    (h : st.cache_ttl ≤ now - st.dialogs_cache_time) :
    cacheServable st now fr = false := by
  have hd : decide (now - st.dialogs_cache_time < st.cache_ttl) = false :=
    decide_eq_false (by omega)
  simp [cacheServable, hd]

/-! ### Claim theorems -/

/-- Claim C8: from every prior cache state, `clear()` followed by
`info()` reports status "empty" and dialogs_count 0, and a second
`clear()` leaves the state exactly as one `clear()` does. -/
theorem clear_idempotence (st : CacheState) (now : Int) :
    get_cache_info (clear_dialogs_cache st) now
      = [("status", .s "empty"), ("dialogs_count", .i 0), ("age_seconds", .i 0)] ∧
    clear_dialogs_cache (clear_dialogs_cache st) = clear_dialogs_cache st := by
  exact ⟨rfl, rfl⟩

/-- Claim C4: `force_refresh=true` always fails the cache-hit test, so
the call performs exactly one backend enumeration, and on success it
stores the enumerated snapshot as the new cache entry with fill time
`now`. -/
theorem force_refresh_bypass (st : CacheState)
    (backend : Except String (List RawDialog)) (now limit : Int) :
    (get_dialogs st backend now limit true).backendCalls = 1 ∧
    ∀ raws : List RawDialog, backend = .ok raws →
      (get_dialogs st backend now limit true).state
        = { st with dialogs_cache := some (refillLoop raws 0),
                    dialogs_cache_time := now } := by
  have h := cacheServable_force st now
  constructor
  · cases backend with
    | error e => rw [get_dialogs_fail st e now limit true h]
    | ok raws => rw [get_dialogs_refill st raws now limit true h]
  · rintro raws rfl
    rw [get_dialogs_refill st raws now limit true h]

/-- Witness for C4 at a concrete state and backend list. -/
theorem force_refresh_bypass_witness :
    (get_dialogs stFilled (.ok [rdUser, rdChannel]) 3 50 true).backendCalls = 1 ∧
    (get_dialogs stFilled (.ok [rdUser, rdChannel]) 3 50 true).state
      = { stFilled with dialogs_cache := some (refillLoop [rdUser, rdChannel] 0),
                        dialogs_cache_time := 3 } :=
  ⟨(force_refresh_bypass stFilled (.ok [rdUser, rdChannel]) 3 50).1,
   (force_refresh_bypass stFilled (.ok [rdUser, rdChannel]) 3 50).2 [rdUser, rdChannel] rfl⟩

/-- Claim C10: when the stored snapshot's age has reached the TTL, a
non-forced `get` whose backend call fails propagates the error — the
stale snapshot is not served — while that snapshot stays in the cache
unchanged. -/
theorem stale_refill_failure (st : CacheState) (c : List Dialog) (e : String)
    (now limit : Int) (hc : st.dialogs_cache = some c)
    (hstale : st.cache_ttl ≤ now - st.dialogs_cache_time) :
    (get_dialogs st (.error e) now limit false).result = .error e ∧
    (get_dialogs st (.error e) now limit false).state = st ∧
    (get_dialogs st (.error e) now limit false).state.dialogs_cache = some c ∧
    (get_dialogs st (.error e) now limit false).backendCalls = 1 := by
  have h := cacheServable_stale st now false hstale
  rw [get_dialogs_fail st e now limit false h]
  exact ⟨rfl, rfl, hc, rfl⟩

/-- Witness for C10: stale snapshot at age 600 = TTL, failing backend. -/
theorem stale_refill_failure_witness :
    (get_dialogs stFilled (.error "HTTP 500") 600 50 false).result = .error "HTTP 500" ∧
    (get_dialogs stFilled (.error "HTTP 500") 600 50 false).state = stFilled ∧
    (get_dialogs stFilled (.error "HTTP 500") 600 50 false).state.dialogs_cache
      = some [mkDialog rdUser] ∧
    (get_dialogs stFilled (.error "HTTP 500") 600 50 false).backendCalls = 1 :=
  stale_refill_failure stFilled [mkDialog rdUser] "HTTP 500" 600 50 rfl (by decide)

/-- Claim C3: if the backend call during a refill fails, the state after
the call is exactly the pre-call state — no partial snapshot — the error
propagates, and a subsequent non-forced `get` still serves a previously
existing snapshot that is fresh at its own call time. -/
theorem refill_failure_isolation (st : CacheState) (e : String)
    (now limit : Int) (fr : Bool) (c : List Dialog)
    (b2 : Except String (List RawDialog)) (t2 l2 : Int)
    (hmiss : cacheServable st now fr = false) :
    (get_dialogs st (.error e) now limit fr).result = .error e ∧
    (get_dialogs st (.error e) now limit fr).state = st ∧
    (st.dialogs_cache = some c → t2 - st.dialogs_cache_time < st.cache_ttl →
      (get_dialogs (get_dialogs st (.error e) now limit fr).state b2 t2 l2 false).result
        = .ok (c.take (clampLimit l2).toNat) ∧
      (get_dialogs (get_dialogs st (.error e) now limit fr).state b2 t2 l2 false).backendCalls
        = 0) := by
  rw [get_dialogs_fail st e now limit fr hmiss]
  refine ⟨rfl, rfl, fun hc hf => ?_⟩
  rw [get_dialogs_hit st b2 t2 l2 false (cacheServable_some_fresh st c t2 hc hf)]
  simp [hc]

/-- Witness for C3: forced refresh fails against a filled fresh cache;
the follow-up non-forced `get` serves the old snapshot with no backend
call. -/
theorem refill_failure_isolation_witness :
    (get_dialogs stFilled (.error "boom") 5 50 true).result = .error "boom" ∧
    (get_dialogs stFilled (.error "boom") 5 50 true).state = stFilled ∧
    (get_dialogs (get_dialogs stFilled (.error "boom") 5 50 true).state (.error "down") 10 3
        false).result
      = .ok (([mkDialog rdUser]).take (clampLimit 3).toNat) ∧
    (get_dialogs (get_dialogs stFilled (.error "boom") 5 50 true).state (.error "down") 10 3
        false).backendCalls = 0 := by
  obtain ⟨h1, h2, h3⟩ :=
    refill_failure_isolation stFilled "boom" 5 50 true [mkDialog rdUser] (.error "down") 10 3
      (by decide)
  exact ⟨h1, h2, (h3 rfl (by decide)).1, (h3 rfl (by decide)).2⟩

/-- Claim C1: a `get` at `t1` that fills the cache, followed within the
TTL by a non-forced `get` at `t2`, makes no backend call on the second
`get`, leaves the state unchanged, and returns the first
`min(limit, len(snapshot))` entries of the snapshot the first call
stored — a prefix of it. -/
theorem ttl_freshness (st : CacheState) (raws : List RawDialog)
    (b2 : Except String (List RawDialog)) (t1 t2 l1 l2 : Int) (fr1 : Bool)
    (hmiss : cacheServable st t1 fr1 = false)
    (hfresh : t2 - t1 < st.cache_ttl) :
    (get_dialogs st (.ok raws) t1 l1 fr1).state.dialogs_cache = some (refillLoop raws 0) ∧
    (get_dialogs (get_dialogs st (.ok raws) t1 l1 fr1).state b2 t2 l2 false).backendCalls = 0 ∧
    (get_dialogs (get_dialogs st (.ok raws) t1 l1 fr1).state b2 t2 l2 false).state
      = (get_dialogs st (.ok raws) t1 l1 fr1).state ∧
    (get_dialogs (get_dialogs st (.ok raws) t1 l1 fr1).state b2 t2 l2 false).result
      = .ok ((refillLoop raws 0).take (clampLimit l2).toNat) ∧
    ((refillLoop raws 0).take (clampLimit l2).toNat).length
      = min (clampLimit l2).toNat (refillLoop raws 0).length ∧
    (refillLoop raws 0).take (clampLimit l2).toNat <+: refillLoop raws 0 := by
  rw [get_dialogs_refill st raws t1 l1 fr1 hmiss]
  have hserv : cacheServable
      { st with dialogs_cache := some (refillLoop raws 0), dialogs_cache_time := t1 } t2 false
      = true :=
    cacheServable_some_fresh _ (refillLoop raws 0) t2 rfl (by simpa using hfresh)
  rw [get_dialogs_hit _ b2 t2 l2 false hserv]
  exact ⟨rfl, rfl, rfl, rfl, List.length_take _ _, List.take_prefix _ _⟩

/-- Witness for C1: empty cache filled at time 0, second `get` at time 5
with limit 1 served from the cache. -/
theorem ttl_freshness_witness :
    (get_dialogs initState (.ok [rdUser, rdChannel]) 0 50 false).state.dialogs_cache
      = some (refillLoop [rdUser, rdChannel] 0) ∧
    (get_dialogs (get_dialogs initState (.ok [rdUser, rdChannel]) 0 50 false).state
        (.error "offline") 5 1 false).backendCalls = 0 ∧
    (get_dialogs (get_dialogs initState (.ok [rdUser, rdChannel]) 0 50 false).state
        (.error "offline") 5 1 false).state
      = (get_dialogs initState (.ok [rdUser, rdChannel]) 0 50 false).state ∧
    (get_dialogs (get_dialogs initState (.ok [rdUser, rdChannel]) 0 50 false).state
        (.error "offline") 5 1 false).result
      = .ok ((refillLoop [rdUser, rdChannel] 0).take (clampLimit 1).toNat) ∧
    ((refillLoop [rdUser, rdChannel] 0).take (clampLimit 1).toNat).length
      = min (clampLimit 1).toNat (refillLoop [rdUser, rdChannel] 0).length ∧
    (refillLoop [rdUser, rdChannel] 0).take (clampLimit 1).toNat
      <+: refillLoop [rdUser, rdChannel] 0 :=
  ttl_freshness initState [rdUser, rdChannel] (.error "offline") 0 5 50 1 false
    (by decide) (by decide)

/-- Claim C2: a refilling `get` whose enumeration succeeds clamps the
limit into [1,200]; the returned list is the first
`min(limit, |snapshot|)` entries of the snapshot, hence a prefix of it
in enumeration order; the snapshot is exactly the non-archived dialogs
capped at 200 and converted in order, so it never exceeds 200 entries;
the cache stores the full snapshot, identically for any other limit, and
`info()` afterwards reports the full snapshot length as
`dialogs_count`. -/
theorem truncation_correctness (st : CacheState) (raws : List RawDialog)
    (now limit limit2 t : Int) (fr : Bool)
    (hmiss : cacheServable st now fr = false) :
    1 ≤ clampLimit limit ∧ clampLimit limit ≤ 200 ∧
    (get_dialogs st (.ok raws) now limit fr).result
      = .ok ((refillLoop raws 0).take (clampLimit limit).toNat) ∧
    refillLoop raws 0 = ((raws.filter fun r => !r.archived).take 200).map mkDialog ∧
    ((refillLoop raws 0).take (clampLimit limit).toNat).length
      = min (clampLimit limit).toNat (refillLoop raws 0).length ∧
    (refillLoop raws 0).take (clampLimit limit).toNat <+: refillLoop raws 0 ∧
    (refillLoop raws 0).length ≤ 200 ∧
    (get_dialogs st (.ok raws) now limit fr).state.dialogs_cache = some (refillLoop raws 0) ∧
    (get_dialogs st (.ok raws) now limit2 fr).state
      = (get_dialogs st (.ok raws) now limit fr).state ∧
    (get_cache_info (get_dialogs st (.ok raws) now limit fr).state t).lookup "dialogs_count"
      = some (.i ((refillLoop raws 0).length : Int)) := by
  rw [get_dialogs_refill st raws now limit fr hmiss,
      get_dialogs_refill st raws now limit2 fr hmiss]
  refine ⟨?_, ?_, rfl, refillLoop_zero raws, List.length_take _ _, List.take_prefix _ _,
    ?_, rfl, rfl, ?_⟩
  · simp [clampLimit]
  · simp [clampLimit]
  · rw [refillLoop_zero raws]
    simp [List.length_take]
  · simp [get_cache_info, List.lookup]

/-- Witness for C2: refill from a 3-element backend list (one archived)
with requested limit 1. -/
theorem truncation_correctness_witness :
    1 ≤ clampLimit 1 ∧ clampLimit 1 ≤ 200 ∧
    (get_dialogs initState (.ok [rdUser, rdArchived, rdChannel]) 0 1 false).result
      = .ok ((refillLoop [rdUser, rdArchived, rdChannel] 0).take (clampLimit 1).toNat) ∧
    refillLoop [rdUser, rdArchived, rdChannel] 0
      = (([rdUser, rdArchived, rdChannel].filter fun r => !r.archived).take 200).map mkDialog ∧
    ((refillLoop [rdUser, rdArchived, rdChannel] 0).take (clampLimit 1).toNat).length
      = min (clampLimit 1).toNat (refillLoop [rdUser, rdArchived, rdChannel] 0).length ∧
    (refillLoop [rdUser, rdArchived, rdChannel] 0).take (clampLimit 1).toNat
      <+: refillLoop [rdUser, rdArchived, rdChannel] 0 ∧
    (refillLoop [rdUser, rdArchived, rdChannel] 0).length ≤ 200 ∧
    (get_dialogs initState (.ok [rdUser, rdArchived, rdChannel]) 0 1 false).state.dialogs_cache
      = some (refillLoop [rdUser, rdArchived, rdChannel] 0) ∧
    (get_dialogs initState (.ok [rdUser, rdArchived, rdChannel]) 0 77 false).state
      = (get_dialogs initState (.ok [rdUser, rdArchived, rdChannel]) 0 1 false).state ∧
    (get_cache_info
        (get_dialogs initState (.ok [rdUser, rdArchived, rdChannel]) 0 1 false).state
        4).lookup "dialogs_count"
      = some (.i ((refillLoop [rdUser, rdArchived, rdChannel] 0).length : Int)) :=
  truncation_correctness initState [rdUser, rdArchived, rdChannel] 0 1 77 4 false (by decide)

/-- Claim C9: a refilling `get` stores as fill time the clock value read
at the start of the call — before the backend is connected to or
enumerated — so when the enumeration finishes at `tFin ≥ now`, `info()`
at any `t ≥ tFin` reports age `t - now`, the sum of the time since the
data arrived and the enumeration duration `tFin - now`; the reported age
therefore exceeds the time since the snapshot's data finished
arriving. -/
theorem fill_time_is_call_start (st : CacheState) (raws : List RawDialog)
    (now limit tFin t : Int) (fr : Bool)
    (hmiss : cacheServable st now fr = false)
    (h1 : now ≤ tFin) (h2 : tFin ≤ t) :
    (get_dialogs st (.ok raws) now limit fr).state.dialogs_cache_time = now ∧
    (get_cache_info (get_dialogs st (.ok raws) now limit fr).state t).lookup "age_seconds"
      = some (.i (t - now)) ∧
    t - now = (t - tFin) + (tFin - now) ∧
    0 ≤ t - tFin ∧ t - tFin ≤ t - now := by
  rw [get_dialogs_refill st raws now limit fr hmiss]
  refine ⟨rfl, ?_, by omega, by omega, by omega⟩
  simp [get_cache_info, List.lookup]

/-- Witness for C9: refill whose clock reads 0 at call start, data
arriving at 7, `info()` read at 10. -/
theorem fill_time_is_call_start_witness :
    (get_dialogs initState (.ok [rdUser]) 0 50 false).state.dialogs_cache_time = 0 ∧
    (get_cache_info (get_dialogs initState (.ok [rdUser]) 0 50 false).state 10).lookup
        "age_seconds"
      = some (.i (10 - 0)) ∧
    (10 : Int) - 0 = (10 - 7) + (7 - 0) ∧
    (0 : Int) ≤ 10 - 7 ∧ (10 : Int) - 7 ≤ 10 - 0 :=
  fill_time_is_call_start initState [rdUser] 0 50 7 10 false (by decide) (by decide) (by decide)

/-- Claim C5 counterexample: in the empty cache state, `info()` returns
a dict with exactly the three keys status, dialogs_count, age_seconds —
the claimed `ttl_seconds` field is absent. -/
theorem cache_info_missing_ttl :
    (get_cache_info initState 0).map Prod.fst = ["status", "dialogs_count", "age_seconds"] ∧
    (get_cache_info initState 0).lookup "ttl_seconds" = none := by
  exact ⟨rfl, rfl⟩

/-- Claim C5 (amended): `info()` is a pure function of the cache state
and the clock — it neither mutates the cache nor triggers a refill.
With no cache entry it returns exactly the three fields status="empty",
dialogs_count=0, age_seconds=0 (no ttl_seconds field); with a snapshot
present it returns the four fields, with status "expired" when
age ≥ ttl and "active" otherwise, dialogs_count the snapshot length,
age_seconds the clock minus the fill time, and ttl_seconds the TTL. -/
theorem cache_info_spec (st : CacheState) (now : Int) :
    (st.dialogs_cache = none →
      get_cache_info st now
        = [("status", .s "empty"), ("dialogs_count", .i 0), ("age_seconds", .i 0)]) ∧
    (∀ c : List Dialog, st.dialogs_cache = some c →
      (get_cache_info st now).map Prod.fst
        = ["status", "dialogs_count", "age_seconds", "ttl_seconds"] ∧
      (st.cache_ttl ≤ now - st.dialogs_cache_time →
        (get_cache_info st now).lookup "status" = some (.s "expired")) ∧
      (now - st.dialogs_cache_time < st.cache_ttl →
        (get_cache_info st now).lookup "status" = some (.s "active")) ∧
      (get_cache_info st now).lookup "dialogs_count" = some (.i (c.length : Int)) ∧
      (get_cache_info st now).lookup "age_seconds"
        = some (.i (now - st.dialogs_cache_time)) ∧
      (get_cache_info st now).lookup "ttl_seconds" = some (.i st.cache_ttl)) := by
  constructor
  · intro h
    simp [get_cache_info, h]
  · intro c hc
    refine ⟨by simp [get_cache_info, hc], ?_, ?_, by simp [get_cache_info, hc, List.lookup],
      by simp [get_cache_info, hc, List.lookup], by simp [get_cache_info, hc, List.lookup]⟩
    · intro hexp
      have hlt : ¬ (now - st.dialogs_cache_time < st.cache_ttl) := by omega
      simp [get_cache_info, hc, List.lookup, hlt]
    · intro hact
      simp [get_cache_info, hc, List.lookup, hact]

/-- Witness for C5: the empty state at time 5, and the filled state both
at ages 600 (expired) and 599 (active). -/
theorem cache_info_spec_witness :
    get_cache_info initState 5
      = [("status", .s "empty"), ("dialogs_count", .i 0), ("age_seconds", .i 0)] ∧
    (get_cache_info stFilled 600).map Prod.fst
      = ["status", "dialogs_count", "age_seconds", "ttl_seconds"] ∧
    (get_cache_info stFilled 600).lookup "status" = some (.s "expired") ∧
    (get_cache_info stFilled 599).lookup "status" = some (.s "active") ∧
    (get_cache_info stFilled 600).lookup "dialogs_count"
      = some (.i (([mkDialog rdUser] : List Dialog).length : Int)) ∧
    (get_cache_info stFilled 600).lookup "age_seconds"
      = some (.i (600 - stFilled.dialogs_cache_time)) ∧
    (get_cache_info stFilled 600).lookup "ttl_seconds" = some (.i stFilled.cache_ttl) := by
  obtain ⟨hemp, hsome⟩ := cache_info_spec stFilled 600
  obtain ⟨hf, hexp, _, hcount, hage, httl⟩ := hsome [mkDialog rdUser] rfl
  obtain ⟨_, hact599⟩ := cache_info_spec stFilled 599
  exact ⟨(cache_info_spec initState 5).1 rfl, hf, hexp (by decide),
    (hact599 [mkDialog rdUser] rfl).2.2.1 (by decide), hcount, hage, httl⟩

/-- Claim C6 counterexample: for the bare-handle input "@somechannel"
(which does not contain "t.me/"), a non-special import failure triggers
no fallback direct join at all — the attempted flag is `false` — and the
raised error wraps the original import error's text twice instead of
carrying an inner join error's description. -/
theorem join_chat_no_fallback_for_bare_handle :
    (join_chat "@somechannel" (some (.other "FLOOD")) fun _ => .error "inner").2 = false ∧
    (join_chat "@somechannel" (some (.other "FLOOD")) fun _ => .error "inner").1
      = .error (.exception
          "Ошибка при присоединении к чату: Ошибка при присоединении к чату: FLOOD") := by
  exact ⟨rfl, rfl⟩

/-- Claim C6 (amended): after an import failure other than
expired-hash, invalid-hash, or already-participant, the fallback direct
join (resolving the input's last path segment, minus one leading "@") is
attempted only when the input contains "t.me/"; if that fallback fails,
a generic failure carrying the inner error's description is raised; for
inputs without "t.me/" no direct join is attempted and the generic
failure wraps the original error's description twice. -/
theorem join_chat_fallback (invite_link e inner : String)
    (fb : String → Except String Unit) :
    (strContains invite_link "t.me/" = true →
      (fb (extractUsername invite_link) = .error inner →
        join_chat invite_link (some (.other e)) fb
          = (.error (.exception ("Ошибка при присоединении к чату: " ++ inner)), true)) ∧
      (fb (extractUsername invite_link) = .ok () →
        join_chat invite_link (some (.other e)) fb
          = (.ok ⟨"joined", "Успешно присоединились к каналу"⟩, true))) ∧
    (strContains invite_link "t.me/" = false →
      join_chat invite_link (some (.other e)) fb
        = (.error (.exception ("Ошибка при присоединении к чату: "
            ++ ("Ошибка при присоединении к чату: " ++ e))), false)) := by
  refine ⟨fun ht => ⟨fun hf => ?_, fun hf => ?_⟩, fun ht => ?_⟩
  · simp [join_chat, ht, hf]
  · simp [join_chat, ht, hf]
  · simp [join_chat, ht]

/-- Witness for C6: a t.me link whose fallback join fails, and a bare
handle that never reaches the fallback. -/
theorem join_chat_fallback_witness :
    join_chat "https://t.me/@chan" (some (.other "err0"))
        (fun _ => .error "CHANNELS_TOO_MUCH")
      = (.error (.exception ("Ошибка при присоединении к чату: " ++ "CHANNELS_TOO_MUCH")),
         true) ∧
    join_chat "@bare" (some (.other "err0")) (fun _ => .error "x")
      = (.error (.exception ("Ошибка при присоединении к чату: "
          ++ ("Ошибка при присоединении к чату: " ++ "err0"))), false) :=
  ⟨((join_chat_fallback "https://t.me/@chan" "err0" "CHANNELS_TOO_MUCH"
      fun _ => .error "CHANNELS_TOO_MUCH").1 rfl).1 rfl,
   (join_chat_fallback "@bare" "err0" "x" fun _ => .error "x").2 rfl⟩

/-- Claim C7: the kind is derived purely from the backend entity — a
person entity yields "user", a small-group entity "group", a channel
entity "channel" when broadcast and "supergroup" otherwise, anything
else "unknown" — and the name is the dialog's title when non-empty, else
the synthesized `"User {id}"`. -/
theorem classification (i : Int) (r : RawDialog) :
    chatType (.user i) = "user" ∧
    chatType (.chat i) = "group" ∧
    chatType (.channel i true) = "channel" ∧
    chatType (.channel i false) = "supergroup" ∧
    chatType (.other i) = "unknown" ∧
    (mkDialog r).type = chatType r.entity ∧
    (mkDialog r).id = Entity.id r.entity ∧
    (∀ s : String, r.title = some s → s ≠ "" → (mkDialog r).name = s) ∧
    (r.title = some "" ∨ r.title = none →
      (mkDialog r).name = "User " ++ toString (Entity.id r.entity)) := by
  refine ⟨rfl, rfl, rfl, rfl, rfl, rfl, rfl, ?_, ?_⟩
  · intro s hs hne
    simp [mkDialog, dialogTitleOr, hs, hne]
  · rintro (h | h) <;> simp [mkDialog, dialogTitleOr, h]

/-- Witness for C7 at concrete entities and dialogs, with and without a
title. -/
theorem classification_witness :
    chatType (.channel 3 true) = "channel" ∧
    (mkDialog rdUser).name = "Alice" ∧
    (mkDialog rdNoTitle).name = "User " ++ toString (Entity.id rdNoTitle.entity) := by
  obtain ⟨-, -, hch, -, -, -, -, hname, -⟩ := classification 3 rdUser
  obtain ⟨-, -, -, -, -, -, -, -, hfall⟩ := classification 0 rdNoTitle
  exact ⟨hch, hname "Alice" rfl (by decide), hfall (Or.inr rfl)⟩

end TelegramAssistent
